import Mathlib

/-!
Verification development for the GrandOrgue real-time sound engine
(`src/grandorgue/sound/GOSoundSystem.h`, `GOSoundSystem.cpp`,
`GOSoundOutputTask`, `GOSoundOrganEngine`).

Modelling conventions:
- `float`/`double` values are modelled as `ℚ` (exact rational idealization of
  the floating-point formulas in the source).
- `unsigned`/`int`/`uint64_t` are modelled as `ℕ`/`ℤ`.  `m_CurrentTime` is a
  64-bit period-sample counter that the code relies on never wrapping (it
  would take millions of years at audio rates), so it is modelled as an
  unbounded `ℕ`.
- Concurrency: one audio callback is modelled as an atomic step on the sound
  system state (in the source every state-mutating part of the callback is
  guarded by the per-device mutex / atomic counters).
-/

namespace GOSound

/-! ## Output task (GOSoundOutputTask)

`GOSoundOutputTask(channels, scale_factors, samples_per_buffer)` stores a
flat scale-factor vector.  `SetOutputs(outputs)` sets
`m_OutputCount = outputs.size() * 2`.  `Run` reads the factor for task
channel `i` and input column `j` as `m_ScaleFactors[i * m_OutputCount + j]`.
-/

/-- An output task as built by `GOSoundOrganEngine::BuildEngine`:
the channel count, the flat scale-factor vector and `m_OutputCount`
(which is twice the number of connected output buffers). -/
structure OutputTask where
  channels : ℕ
  scaleFactors : List ℚ
  outputCount : ℕ

/-- The factor `m_ScaleFactors[i * m_OutputCount + j]` read by
`GOSoundOutputTask::Run` for task channel `i` and input column `j`
(out-of-range reads modelled as 0; the source never reads out of range). -/
def OutputTask.factor (t : OutputTask) (i j : ℕ) : ℚ :=
  t.scaleFactors.getD (i * t.outputCount + j) 0

/-- The downmix scale-factor vector built in `BuildEngine` step [B3]:
a vector of `m_NAudioGroups * 2 * 2` zeros, then for every `groupI`
`scaleFactors[groupI * 4] = 1` and `scaleFactors[groupI * 4 + 3] = 1`. -/
def downmixScaleFactors (nAudioGroups : ℕ) : List ℚ :=
  (List.range nAudioGroups).foldl
    (fun v g => (v.set (g * 4) 1).set (g * 4 + 3) 1)
    (List.replicate (nAudioGroups * 2 * 2) 0)

/-- The downmix task built in `BuildEngine` step [B3]:
`GOSoundOutputTask(2, scaleFactors, m_NSamplesPerBuffer)` followed by
`SetOutputs(groupOutputs)` where `groupOutputs` has one entry per audio
group, hence `m_OutputCount = nAudioGroups * 2`. -/
def buildDownmixTask (nAudioGroups : ℕ) : OutputTask :=
  { channels := 2
    scaleFactors := downmixScaleFactors nAudioGroups
    outputCount := nAudioGroups * 2 }

/-- The unity-map factor matrix described by the spec for the downmix task:
group `g`'s left column (`j = 2g`) contributes 1 to channel 0, its right
column (`j = 2g + 1`) contributes 1 to channel 1, all other factors are 0. -/
def unityMapFactor (i j : ℕ) : ℚ :=
  if (i = 0 ∧ j % 2 = 0) ∨ (i = 1 ∧ j % 2 = 1) then 1 else 0

/-! ## Lifecycle and GetAudioOutput -/

/-- The engine lifecycle states (`GOSoundOrganEngine::LifecycleState`). -/
inductive LifecycleState
  | IDLE
  | BUILT
  | WORKING
  | USED
deriving DecidableEq, Repr

/-- `GOSoundOrganEngine::GetAudioOutput`: when the lifecycle state is
`WORKING`, the finished output task's buffer is copied into the device
buffer; in any other state the device buffer is filled with silence.
The `Finish`/`CopyFrom` pair is modelled by returning the task's buffer. -/
def getAudioOutput
    (state : LifecycleState) (taskBuffer : List ℚ) (nItems : ℕ) : List ℚ :=
  if state = LifecycleState.WORKING then taskBuffer
  else List.replicate nItems 0

/-! ## Output task clamp (GOSoundOutputTask::Run final phase) -/

/-- One step of the clamp loop: `std::clamp(*pData, CLAMP_MIN, CLAMP_MAX)`
with `CLAMP_MIN = -1.0f` and `CLAMP_MAX = 1.0f`. -/
def clampSample (x : ℚ) : ℚ :=
  if x < -1 then -1 else if 1 < x then 1 else x

/-- Result of `GOSoundOutputTask::Run`: the buffer contents and the
`m_Done` flag. -/
structure OutputRunResult where
  buffer : List ℚ
  done : Bool

/-- The completing phase of `GOSoundOutputTask::Run`: after the mix loop and
the reverb, every item of the task buffer is clamped and `m_Done` is stored
true.  The mixed buffer (silence plus accumulated group outputs plus reverb)
is passed in abstractly, so every possible mix result is covered. -/
def outputTaskRunFinal (mixed : List ℚ) : OutputRunResult :=
  { buffer := mixed.map clampSample, done := true }

/-! ## Samplers (GOSoundSampler fields used by the engine code in scope)

Provider pointers are modelled as identities in `ℕ`, with
`p_SoundProvider = NULL` as `none`. -/

/-- Fields of `GOSoundSampler` read or written by
`GOSoundOrganEngine::{ProcessSampler, StopSample, SwitchSample,
UpdateVelocity}`. -/
structure Sampler where
  provider : Option ℕ
  time : ℕ
  stop : ℕ
  newAttack : ℕ
  delay : ℕ
  velocity : ℕ
  isRelease : Bool
  dropCounter : ℕ
  faderVelocityVolume : ℚ
deriving DecidableEq, Repr

/-- `GOSoundOrganEngine::MsToSamples`: `m_SampleRate * ms / 1000` in
unsigned arithmetic. -/
def msToSamples (sampleRate ms : ℕ) : ℕ :=
  sampleRate * ms / 1000

/-- The engine fields read by `GOSoundOrganEngine::ProcessSampler`. -/
structure ProcessEnv where
  currentTime : ℕ
  sampleRate : ℕ
  isPolyphonyLimiting : Bool
  usedSamplerCount : ℕ
  polyphonySoftLimit : ℕ

/-- `GOSoundOrganEngine::SetHardPolyphony` derives the soft limit as
`(m_SamplerPool.GetUsageLimit() * 3) / 4`. -/
def polyphonySoftLimit (hardPolyphony : ℕ) : ℕ :=
  hardPolyphony * 3 / 4

/-- Observable effects of one `GOSoundOrganEngine::ProcessSampler` call. -/
structure ProcessResult where
  /-- Argument of `fader.StartDecreasingVolume` if it was called. -/
  decaySamples : Option ℕ
  /-- Whether `p_SoundProvider` was set to NULL (stream exhausted). -/
  providerAfter : Option ℕ
  /-- Whether the sampler was handed to the release task. -/
  sentToReleaseTask : Bool
  /-- Whether the sampler was returned to the pool. -/
  returnedToPool : Bool
  /-- The return value (keep the sampler in the task's active list). -/
  keep : Bool
deriving DecidableEq, Repr

/-- `GOSoundOrganEngine::ProcessSampler`, with the stream read abstracted by
`readOk` (the result of `stream.ReadBlock`) and the fader silence test by
`faderSilent` (the result of `fader.IsSilent()` after processing). -/
def processSampler (e : ProcessEnv) (s : Sampler)
    (readOk faderSilent : Bool) : ProcessResult :=
  let due := s.time ≤ e.currentTime
  let decay := due ∧ s.isRelease = true ∧
    ((e.isPolyphonyLimiting = true ∧
        e.polyphonySoftLimit ≤ e.usedSamplerCount ∧
        172 * 16 < e.currentTime - s.time) ∨
      1 < s.dropCounter)
  let providerAfter := if due ∧ readOk = false then none else s.provider
  let toRelease := due ∧
    ((s.stop ≠ 0 ∧ s.stop ≤ e.currentTime) ∨
      (s.newAttack ≠ 0 ∧ s.newAttack ≤ e.currentTime))
  let toPool := ¬ toRelease ∧
    (providerAfter = none ∨ (faderSilent = true ∧ due))
  { decaySamples :=
      if decay then some (msToSamples e.sampleRate 370) else none
    providerAfter := providerAfter
    sentToReleaseTask := decide toRelease
    returnedToPool := decide toPool
    keep := decide (¬ toRelease ∧ ¬ toPool) }

/-- The condition the claim states for decay scheduling (strict `>` against
the soft limit), to be compared with the source's `>=` test. -/
def claimSoftLimitCondition (e : ProcessEnv) (s : Sampler) : Prop :=
  (e.isPolyphonyLimiting = true ∧
      e.polyphonySoftLimit < e.usedSamplerCount ∧
      172 * 16 < e.currentTime - s.time) ∨
    1 < s.dropCounter

instance (e : ProcessEnv) (s : Sampler) :
    Decidable (claimSoftLimitCondition e s) := by
  unfold claimSoftLimitCondition
  infer_instance

/-! ## Voice-handle operations (StopSample / SwitchSample / UpdateVelocity) -/

/-- `GOSoundOrganEngine::StopSample`: returns 0 and leaves the sampler
untouched when the handle's provider differs from `pipe`; otherwise sets
`handle->stop = m_CurrentTime + handle->delay` and returns it. -/
def stopSample (pipe : ℕ) (s : Sampler) (currentTime : ℕ) : ℕ × Sampler :=
  if s.provider ≠ some pipe then (0, s)
  else
    let t := currentTime + s.delay
    (t, { s with stop := t })

/-- `GOSoundOrganEngine::SwitchSample`: a no-op when the handle's provider
differs from `pipe`; otherwise sets
`handle->new_attack = m_CurrentTime + handle->delay`. -/
def switchSample (pipe : ℕ) (s : Sampler) (currentTime : ℕ) : Sampler :=
  if s.provider ≠ some pipe then s
  else { s with newAttack := currentTime + s.delay }

/-- `GOSoundOrganEngine::UpdateVelocity`: a no-op when the handle's provider
differs from `pipe`; otherwise stores the velocity and sets the fader's
velocity volume to `pipe->GetVelocityVolume(velocity)` (the provider's
velocity-volume map is passed as `velocityVolume`). -/
def updateVelocity (pipe : ℕ) (velocityVolume : ℕ → ℚ) (s : Sampler)
    (velocity : ℕ) : Sampler :=
  if s.provider = some pipe then
    { s with velocity := velocity
             faderVelocityVolume := velocityVolume velocity }
  else s

/-! ## Engine lifecycle state machine (fields relevant to the claims) -/

/-- The `GOSoundOrganEngine` fields touched by the lifecycle operations:
`m_CurrentTime`, `m_NSamplesPerBuffer`, `m_SampleRate`, `m_UsedPolyphony`,
the sampler-pool usage limit (hard polyphony), `m_PolyphonySoftLimit` and
`m_LifecycleState`. -/
structure EngineState where
  currentTime : ℕ
  nSamplesPerBuffer : ℕ
  sampleRate : ℕ
  usedPolyphony : ℕ
  hardPolyphony : ℕ
  softLimit : ℕ
  lifecycle : LifecycleState
deriving DecidableEq, Repr

/-- The engine constructor: `m_NSamplesPerBuffer(1)`, `m_SampleRate(0)`,
`m_LifecycleState(LifecycleState::IDLE)`, `m_CurrentTime(1)`,
`m_UsedPolyphony(0)`, `m_SamplerPool.SetUsageLimit(2048)` and
`m_PolyphonySoftLimit = (2048 * 3) / 4`. -/
def initEngine : EngineState :=
  { currentTime := 1
    nSamplesPerBuffer := 1
    sampleRate := 0
    usedPolyphony := 0
    hardPolyphony := 2048
    softLimit := polyphonySoftLimit 2048
    lifecycle := LifecycleState.IDLE }

/-- `GOSoundOrganEngine::ResetCounters`: `m_UsedPolyphony.store(0)`,
`m_SamplerPool.ReturnAll()`, `m_CurrentTime = 1`, `m_Scheduler.Reset()`. -/
def resetCounters (e : EngineState) : EngineState :=
  { e with usedPolyphony := 0, currentTime := 1 }

/-- `GOSoundOrganEngine::NextPeriod`: after `m_Scheduler.Exec()`,
`m_CurrentTime += m_NSamplesPerBuffer` and `m_UsedPolyphony` is raised to
the pool's used-sampler count if larger; `usedSamplers` stands for
`m_SamplerPool.UsedSamplerCount()`. -/
def nextPeriod (usedSamplers : ℕ) (e : EngineState) : EngineState :=
  { e with
    currentTime := e.currentTime + e.nSamplesPerBuffer
    usedPolyphony :=
      if e.usedPolyphony < usedSamplers then usedSamplers
      else e.usedPolyphony }

/-- The engine operations that touch the modelled fields, each carrying the
external inputs of the corresponding member function. -/
inductive EngineOp
  | buildEngine (nSamplesPerBuffer sampleRate : ℕ)
  | startEngine
  | stopEngine
  | resetCountersOp
  | nextPeriodOp (usedSamplers : ℕ)
  | setUsed (isUsed : Bool)
  | setHardPolyphony (polyphony : ℕ)
deriving DecidableEq, Repr

/-- Effect of one engine operation on the modelled fields, translated from
`BuildEngine`, `StartEngine`, `StopEngine`, `ResetCounters`, `NextPeriod`,
`SetUsed` and `SetHardPolyphony`. -/
def runEngineOp (e : EngineState) : EngineOp → EngineState
  | EngineOp.buildEngine nspb sr =>
      { e with nSamplesPerBuffer := nspb, sampleRate := sr
               lifecycle := LifecycleState.BUILT }
  | EngineOp.startEngine =>
      { resetCounters e with lifecycle := LifecycleState.WORKING }
  | EngineOp.stopEngine => { e with lifecycle := LifecycleState.BUILT }
  | EngineOp.resetCountersOp => resetCounters e
  | EngineOp.nextPeriodOp used => nextPeriod used e
  | EngineOp.setUsed isUsed =>
      { e with lifecycle :=
          if isUsed then LifecycleState.USED else LifecycleState.WORKING }
  | EngineOp.setHardPolyphony n =>
      { e with hardPolyphony := n, softLimit := polyphonySoftLimit n }

/-- Running a sequence of engine operations from the constructed state. -/
def runEngineOps (ops : List EngineOp) : EngineState :=
  ops.foldl runEngineOp initEngine

/-! ## Sound system audio callback (GOSoundSystem::AudioCallback) -/

/-- The `GOSoundSystem` fields involved in the per-period rendezvous:
`m_IsRunning`, `m_SamplesPerBuffer`, the number of audio outputs,
`m_NCallbacksEntered`, `m_CalcCount`, `m_WaitCount` and the engine. -/
structure SoundSystemState where
  isRunning : Bool
  samplesPerBuffer : ℕ
  nDevices : ℕ
  nCallbacksEntered : ℕ
  calcCount : ℕ
  waitCount : ℕ
  engine : EngineState
deriving DecidableEq, Repr

/-- Everything one `GOSoundSystem::AudioCallback` call produces: the state
afterwards, the device buffer contents, whether `NextPeriod` ran, whether
the buffer-size mismatch was logged, and the returned continue status. -/
structure CallbackOutcome where
  state : SoundSystemState
  outBuffer : List ℚ
  ranNextPeriod : Bool
  loggedMismatch : Bool
  result : Bool
deriving DecidableEq, Repr

/-- `GOSoundSystem::AudioCallback` for device `devIndex`, modelled as one
atomic step (the mutating parts are serialized by the per-device mutex and
the atomic counters in the source).  `nSamples` is `outBuffer.GetNFrames()`,
`taskBuffer` the finished output task's buffer for this device, and
`usedSamplers` the pool usage read by `NextPeriod`. -/
def audioCallback (st : SoundSystemState) (nSamples : ℕ)
    (taskBuffer : List ℚ) (usedSamplers : ℕ) : CallbackOutcome :=
  let wasEntered := st.isRunning = true ∧ nSamples = st.samplesPerBuffer
  let logged := st.isRunning = true ∧ nSamples ≠ st.samplesPerBuffer
  if wasEntered then
    let out := getAudioOutput st.engine.lifecycle taskBuffer nSamples
    let count := st.waitCount
    let isLast := count + 1 = st.nDevices
    { state :=
        { st with
          calcCount := if isLast then 0 else st.calcCount + 1
          waitCount := if isLast then 0 else count + 1
          engine :=
            if isLast then nextPeriod usedSamplers st.engine else st.engine }
      outBuffer := out
      ranNextPeriod := decide isLast
      loggedMismatch := decide logged
      result := true }
  else
    { state := st
      outBuffer := List.replicate nSamples 0
      ranNextPeriod := false
      loggedMismatch := decide logged
      result := true }

/-! ## Release decay shaping (GOSoundOrganEngine::CreateReleaseSampler)

The scaled-release block of `CreateReleaseSampler`, entered for a sampler on
a windchest task (`not_a_tremulant`) when `m_IsScaledReleases` holds.  The
elapsed time `t` is `((m_CurrentTime - handle->time) * 1000) / m_SampleRate`
in integer arithmetic. -/

/-- Elapsed note time in milliseconds as computed in `CreateReleaseSampler`:
`((m_CurrentTime - handle->time) * 1000) / m_SampleRate`. -/
def releaseElapsedMs (startTime currentTime sampleRate : ℕ) : ℕ :=
  (currentTime - startTime) * 1000 / sampleRate

/-- The MIDI key defaulting in `CreateReleaseSampler`: `midikey_frequency`
becomes 60 when `midikey_frequency > 133 || midikey_frequency == 0`. -/
def defaultMidiKey (k : ℕ) : ℕ :=
  if 133 < k ∨ k = 0 then 60 else k

/-- The modelled attack duration in milliseconds: 50 unless the key is below
96; 500 below 24; otherwise `500.0f + (24.0f - key) * 6.25f`. -/
def attackDurationFor (key : ℕ) : ℚ :=
  if key < 96 then
    if key < 24 then 500
    else 500 + (24 - (key : ℚ)) * (25 / 4)
  else 50

/-- The gain factor
`0.2f + 0.8f * (2.0f * attack_index - attack_index * attack_index)` with
`attack_index = time / attack_duration`. -/
def releaseGainDelta (t : ℕ) (attackDuration : ℚ) : ℚ :=
  let x : ℚ := (t : ℚ) / attackDuration
  1 / 5 + 4 / 5 * (2 * x - x * x)

/-- `time_to_full_reverb` in `CreateReleaseSampler`:
`(60 * L) / sr + 40` in integer arithmetic, clamped above at 350 and then
below at 100 (`L` is the release section's length, `sr` its sample rate). -/
def timeToFullReverb (sectionLength sectionSampleRate : ℕ) : ℕ :=
  let t0 := 60 * sectionLength / sectionSampleRate + 40
  let t1 := if 350 < t0 then 350 else t0
  if t1 < 100 then 100 else t1

/-- The two shaping outputs of the scaled-release code: the factor applied
to the release gain target by the attack model, and the
`gain_decay_length` in milliseconds finally passed to
`fader.StartDecreasingVolume` (0 means no decay is scheduled). -/
structure ReleaseScaling where
  gainFactor : ℚ
  decayMs : ℕ
deriving DecidableEq, Repr

/-- The release decay shaping of `CreateReleaseSampler`: when the sampler is
on a windchest task and `m_IsScaledReleases` holds, the attack model scales
the gain target for `time < (int)attack_duration` and computes
`gain_decay_length = time_to_full_reverb + 6000 * time / time_to_full_reverb`
for `time < time_to_full_reverb`; in every case a positive release tail
(`this_pipe->GetReleaseTail()`) overrides a longer or absent decay length. -/
def createReleaseScaling (scaledReleases isWindchestSampler : Bool)
    (midiKey t sectionLength sectionSampleRate releaseTail : ℕ) :
    ReleaseScaling :=
  let shaped :=
    if isWindchestSampler = true ∧ scaledReleases = true then
      let key := defaultMidiKey midiKey
      let ad := attackDurationFor key
      let gf := if (t : ℤ) < ⌊ad⌋ then releaseGainDelta t ad else 1
      let ttr := timeToFullReverb sectionLength sectionSampleRate
      let gdl := if t < ttr then ttr + 6000 * t / ttr else 0
      ((gf, gdl) : ℚ × ℕ)
    else ((1 : ℚ), 0)
  let gdl :=
    if 0 < releaseTail ∧ (releaseTail < shaped.2 ∨ shaped.2 = 0) then
      releaseTail
    else shaped.2
  { gainFactor := shaped.1, decayMs := gdl }

/-- The attack duration as the spec words it: 50 ms at `k ≥ 96`, 500 ms at
`k ≤ 24`, linear in between. -/
def attackDurationSpec (k : ℕ) : ℚ :=
  if 96 ≤ k then 50
  else if k ≤ 24 then 500
  else 500 + ((k : ℚ) - 24) * ((50 - 500) / (96 - 24))

/-! ## Concrete instances used to exercise the theorems -/

/-- A release sampler that started at time 1 with no pending stop or
attack switch. -/
def agedReleaseSampler : Sampler :=
  { provider := some 1
    time := 1
    stop := 0
    newAttack := 0
    delay := 0
    velocity := 64
    isRelease := true
    dropCounter := 0
    faderVelocityVolume := 1 }

/-- An engine reading with hard polyphony 4 whose pool usage sits exactly at
the derived soft limit `(4 * 3) / 4 = 3`. -/
def atSoftLimitEnv : ProcessEnv :=
  { currentTime := 10000
    sampleRate := 44100
    isPolyphonyLimiting := true
    usedSamplerCount := 3
    polyphonySoftLimit := polyphonySoftLimit 4 }

/-- The same reading with the pool usage strictly above the soft limit. -/
def overSoftLimitEnv : ProcessEnv :=
  { atSoftLimitEnv with usedSamplerCount := 4 }

/-- A running two-device sound system at 256 samples per buffer. -/
def sampleSystem : SoundSystemState :=
  { isRunning := true
    samplesPerBuffer := 256
    nDevices := 2
    nCallbacksEntered := 0
    calcCount := 0
    waitCount := 0
    engine :=
      { initEngine with
        nSamplesPerBuffer := 256
        sampleRate := 44100
        lifecycle := LifecycleState.WORKING } }

/-! ## Helper lemmas -/

lemma getD_set_q (l : List ℚ) (k i : ℕ) (a : ℚ) :
    (l.set k a).getD i 0 = if k = i ∧ i < l.length then a else l.getD i 0 := by
  simp only [List.getD_eq_getElem?_getD, List.getElem?_set]
  by_cases hk : k = i
  · subst hk
    by_cases hl : k < l.length
    · simp [hl]
    · simp only [hl, if_false, if_neg hl, Option.getD_none]
      rw [List.getElem?_eq_none (by omega)]
      rfl
  · simp [hk]

lemma downmixFoldl_length (m : ℕ) (v : List ℚ) :
    ((List.range m).foldl
        (fun w g => (w.set (g * 4) 1).set (g * 4 + 3) 1) v).length
      = v.length := by
  induction m with
  | zero => simp
  | succ m ih =>
      rw [List.range_succ, List.foldl_append]
      simp [ih]

lemma downmixFoldl_getD (m : ℕ) (v : List ℚ) (i : ℕ) :
    ((List.range m).foldl
        (fun w g => (w.set (g * 4) 1).set (g * 4 + 3) 1) v).getD i 0
      = if i < v.length ∧ i / 4 < m ∧ (i % 4 = 0 ∨ i % 4 = 3) then 1
        else v.getD i 0 := by
  induction m with
  | zero => simp
  | succ m ih =>
      rw [List.range_succ, List.foldl_append]
      simp only [List.foldl_cons, List.foldl_nil]
      rw [getD_set_q, getD_set_q, ih]
      rw [List.length_set, downmixFoldl_length]
      split_ifs <;> first | rfl | (exfalso; omega)

/-- Positional characterization of the downmix scale-factor vector: 1
exactly at the in-range indices congruent to 0 or 3 modulo 4. -/
lemma downmixScaleFactors_getD (n i : ℕ) :
    (downmixScaleFactors n).getD i 0
      = if i < n * 4 ∧ (i % 4 = 0 ∨ i % 4 = 3) then 1 else 0 := by
  unfold downmixScaleFactors
  rw [downmixFoldl_getD]
  have hrep : (List.replicate (n * 2 * 2) (0 : ℚ)).getD i 0 = 0 := by
    simp [List.getD_eq_getElem?_getD, List.getElem?_replicate]
    split <;> rfl
  rw [hrep, List.length_replicate]
  split_ifs <;> first | rfl | (exfalso; omega)

/-! ## Claim theorems -/

lemma runEngineOp_time_lb (e : EngineState) (op : EngineOp)
    (h : 1 ≤ e.currentTime) : 1 ≤ (runEngineOp e op).currentTime := by
  cases op <;> simp [runEngineOp, resetCounters, nextPeriod] <;> omega

lemma foldl_runEngineOp_time_lb (ops : List EngineOp) (e : EngineState)
    (h : 1 ≤ e.currentTime) : 1 ≤ (ops.foldl runEngineOp e).currentTime := by
  induction ops generalizing e with
  | nil => exact h
  | cons op ops ih => exact ih _ (runEngineOp_time_lb e op h)

/-- Claim C1 counterexample: with two audio groups the downmix task's
scale-factor matrix is not the unity map; group 1's left output (column 2)
contributes factor 0, not 1, to device channel 0. -/
theorem downmix_not_unity_for_two_groups :
    (buildDownmixTask 2).factor 0 2 = 0 ∧ unityMapFactor 0 2 = 1 ∧
    (buildDownmixTask 2).factor 0 2 ≠ unityMapFactor 0 2 := by decide

/-- Claim C1 (amended): with downmix enabled the downmix task is an Output
task with 2 channels; its flat scale-factor vector carries 1 exactly at the
indices 4g and 4g+3 for each audio group g and 0 elsewhere, which under the
channel-major indexing of Run coincides with the unity map (group g left to
channel 0, right to channel 1) exactly in the single-audio-group case. -/
theorem downmix_task_structure (n : ℕ) :
    (buildDownmixTask n).channels = 2 ∧
    (∀ i, (buildDownmixTask n).scaleFactors.getD i 0
        = if i < n * 4 ∧ (i % 4 = 0 ∨ i % 4 = 3) then 1 else 0) ∧
    (n = 1 → ∀ i < 2, ∀ j < n * 2,
      (buildDownmixTask n).factor i j = unityMapFactor i j) := by
  refine ⟨rfl, fun i => downmixScaleFactors_getD n i, ?_⟩
  rintro rfl
  decide

theorem downmix_task_structure_witness :
    (buildDownmixTask 1).factor 1 1 = unityMapFactor 1 1 :=
  (downmix_task_structure 1).2.2 rfl 1 (by decide) 1 (by decide)

/-- Claim C2 counterexample: in the USED state GetAudioOutput does not copy
the output task's buffer; it fills the device buffer with silence. -/
theorem getAudioOutput_used_is_silence :
    getAudioOutput LifecycleState.USED [(1 : ℚ)] 1 = [0] ∧
    getAudioOutput LifecycleState.USED [(1 : ℚ)] 1 ≠ [(1 : ℚ)] := by decide

/-- Claim C2 (amended): GetAudioOutput copies the finished output task's
buffer into the device buffer exactly when the lifecycle state is WORKING,
and fills the device buffer with silence in every other state (IDLE, BUILT,
USED). -/
theorem getAudioOutput_by_state (st : LifecycleState) (buf : List ℚ)
    (n : ℕ) :
    (st = LifecycleState.WORKING → getAudioOutput st buf n = buf) ∧
    (st ≠ LifecycleState.WORKING →
      getAudioOutput st buf n = List.replicate n 0) := by
  constructor <;> intro h <;> simp [getAudioOutput, h]

theorem getAudioOutput_by_state_witness :
    getAudioOutput LifecycleState.WORKING [(1 : ℚ)] 1 = [(1 : ℚ)] ∧
    getAudioOutput LifecycleState.BUILT [(1 : ℚ)] 1 = List.replicate 1 0 :=
  ⟨(getAudioOutput_by_state LifecycleState.WORKING [(1 : ℚ)] 1).1 rfl,
    (getAudioOutput_by_state LifecycleState.BUILT [(1 : ℚ)] 1).2 (by decide)⟩

/-- Claim C3 counterexample: with hard polyphony 4 (soft limit 3) and the
pool usage exactly at the soft limit, the source schedules the 370 ms decay
for a due, aged release voice, while the claim's strict inequality
(used > soft) says no decay is scheduled. -/
theorem decay_at_soft_limit_boundary :
    agedReleaseSampler.isRelease = true ∧
    agedReleaseSampler.time ≤ atSoftLimitEnv.currentTime ∧
    atSoftLimitEnv.polyphonySoftLimit = polyphonySoftLimit 4 ∧
    atSoftLimitEnv.usedSamplerCount = atSoftLimitEnv.polyphonySoftLimit ∧
    172 * 16 < atSoftLimitEnv.currentTime - agedReleaseSampler.time ∧
    (processSampler atSoftLimitEnv agedReleaseSampler true false).decaySamples
      = some (msToSamples atSoftLimitEnv.sampleRate 370) ∧
    ¬ claimSoftLimitCondition atSoftLimitEnv agedReleaseSampler := by decide

/-- Claim C3 (amended): for a due release voice, ProcessSampler schedules
the fader to decay to 0 over 370 ms exactly when polyphony limiting is on,
the pool usage is greater than or equal to the soft limit `(3C)/4`, and the
voice's age exceeds 172 * 16 samples, or the drop counter exceeds 1. -/
theorem processSampler_decay_iff (e : ProcessEnv) (s : Sampler)
    (readOk faderSilent : Bool)
    (hdue : s.time ≤ e.currentTime) (hrel : s.isRelease = true) :
    (processSampler e s readOk faderSilent).decaySamples
        = some (msToSamples e.sampleRate 370)
      ↔ ((e.isPolyphonyLimiting = true ∧
            e.polyphonySoftLimit ≤ e.usedSamplerCount ∧
            172 * 16 < e.currentTime - s.time) ∨
          1 < s.dropCounter) := by
  unfold processSampler
  simp only [hdue, hrel, true_and, and_true]
  split_ifs with h
  · exact iff_of_true rfl h
  · exact iff_of_false (by simp) h

theorem processSampler_decay_iff_witness :
    (processSampler overSoftLimitEnv agedReleaseSampler true false).decaySamples
      = some (msToSamples overSoftLimitEnv.sampleRate 370) :=
  (processSampler_decay_iff overSoftLimitEnv agedReleaseSampler true false
      (by decide) (by decide)).mpr
    (Or.inl ⟨rfl, by decide, by decide⟩)

/-- Claim C4: StopSample, SwitchSample and UpdateVelocity leave the voice
untouched when the handle's provider differs from the given provider (and
StopSample returns 0); on a provider match StopSample sets and returns
`current_time + delay` as the stop time and SwitchSample sets the
attack-switch time to `current_time + delay`. -/
theorem handle_provider_guard (pipe : ℕ) (velocityVolume : ℕ → ℚ)
    (s : Sampler) (currentTime v : ℕ) :
    (s.provider ≠ some pipe →
      stopSample pipe s currentTime = (0, s) ∧
      switchSample pipe s currentTime = s ∧
      updateVelocity pipe velocityVolume s v = s) ∧
    (s.provider = some pipe →
      stopSample pipe s currentTime
          = (currentTime + s.delay, { s with stop := currentTime + s.delay }) ∧
      switchSample pipe s currentTime
          = { s with newAttack := currentTime + s.delay }) := by
  constructor <;> intro h
  · exact ⟨by simp [stopSample, h], by simp [switchSample, h],
      by simp [updateVelocity, h]⟩
  · exact ⟨by simp [stopSample, h], by simp [switchSample, h]⟩

theorem handle_provider_guard_witness :
    stopSample 2 agedReleaseSampler 5 = (0, agedReleaseSampler) ∧
    stopSample 1 agedReleaseSampler 5
      = (5 + agedReleaseSampler.delay,
          { agedReleaseSampler with stop := 5 + agedReleaseSampler.delay }) :=
  ⟨((handle_provider_guard 2 (fun _ => 1) agedReleaseSampler 5 0).1
      (by decide)).1,
    ((handle_provider_guard 1 (fun _ => 1) agedReleaseSampler 5 0).2
      (by decide)).1⟩

/-- Claim C5: once GOSoundOutputTask::Run has completed (done flag set),
every sample of the task's output buffer lies in [-1, 1], whatever the mix
and reverb produced before the clamp loop. -/
theorem outputTask_run_buffer_clamped (mixed : List ℚ)
    (_hdone : (outputTaskRunFinal mixed).done = true) :
    ∀ s ∈ (outputTaskRunFinal mixed).buffer, -1 ≤ s ∧ s ≤ 1 := by
  intro s hs
  simp only [outputTaskRunFinal, List.mem_map] at hs
  obtain ⟨x, _, rfl⟩ := hs
  unfold clampSample
  split_ifs with h1 h2
  · exact ⟨le_refl _, by norm_num⟩
  · exact ⟨by norm_num, le_refl _⟩
  · exact ⟨by linarith, by linarith⟩

theorem outputTask_run_buffer_clamped_witness :
    -1 ≤ (1 : ℚ) ∧ (1 : ℚ) ≤ 1 :=
  outputTask_run_buffer_clamped [3 / 2] rfl 1
    (by simp [outputTaskRunFinal, clampSample]; norm_num)

/-- Claim C6: NextPeriod advances current_time by exactly
n_samples_per_buffer, and within a period the audio callback invokes
NextPeriod exactly when its wait-count increment is the last one
(the last-arriving device callback). -/
theorem nextPeriod_advance_and_rendezvous (st : SoundSystemState)
    (nSamples usedSamplers : ℕ) (taskBuffer : List ℚ)
    (hrun : st.isRunning = true) (hmatch : nSamples = st.samplesPerBuffer) :
    (∀ u e, (nextPeriod u e).currentTime
        = e.currentTime + e.nSamplesPerBuffer) ∧
    ((audioCallback st nSamples taskBuffer usedSamplers).ranNextPeriod = true
      ↔ st.waitCount + 1 = st.nDevices) ∧
    ((audioCallback st nSamples taskBuffer usedSamplers).ranNextPeriod = true →
      (audioCallback st nSamples taskBuffer usedSamplers).state.engine.currentTime
        = st.engine.currentTime + st.engine.nSamplesPerBuffer) := by
  refine ⟨fun u e => rfl, ?_, ?_⟩ <;>
    unfold audioCallback <;>
    simp only [hrun, hmatch, true_and, if_pos (And.intro rfl rfl)] <;>
    by_cases hlast : st.waitCount + 1 = st.nDevices <;>
    simp [hlast, nextPeriod]

theorem nextPeriod_advance_and_rendezvous_witness :
    (audioCallback { sampleSystem with waitCount := 1 } 256 [] 0).state.engine.currentTime
      = sampleSystem.engine.currentTime + sampleSystem.engine.nSamplesPerBuffer := by
  have h := nextPeriod_advance_and_rendezvous
    { sampleSystem with waitCount := 1 } 256 0 [] rfl rfl
  exact h.2.2 (h.2.1.mpr rfl)

/-- Claim C9: a callback arriving while running with a frame count different
from the configured samples per buffer logs the mismatch, outputs silence,
changes no system or engine state, does not run NextPeriod, and still
returns the continue status. -/
theorem mismatched_callback_noop (st : SoundSystemState)
    (nSamples usedSamplers : ℕ) (taskBuffer : List ℚ)
    (hrun : st.isRunning = true) (hmis : nSamples ≠ st.samplesPerBuffer) :
    audioCallback st nSamples taskBuffer usedSamplers
      = { state := st
          outBuffer := List.replicate nSamples 0
          ranNextPeriod := false
          loggedMismatch := true
          result := true } := by
  unfold audioCallback
  simp [hrun, hmis]

theorem mismatched_callback_noop_witness :
    audioCallback sampleSystem 128 [] 0
      = { state := sampleSystem
          outBuffer := List.replicate 128 0
          ranNextPeriod := false
          loggedMismatch := true
          result := true } :=
  mismatched_callback_noop sampleSystem 128 0 [] (by decide) (by decide)

/-- Claim C10: current_time starts at 1, ResetCounters restores it to 1,
every engine operation either leaves it in place, raises it, or resets it to
1, so it stays at least 1 after any operation sequence; hence a scheduled
stop time current_time + delay is never 0 and StopSample returns 0 exactly
on a provider mismatch. -/
theorem currentTime_ge_one :
    initEngine.currentTime = 1 ∧
    (∀ e, (resetCounters e).currentTime = 1) ∧
    (∀ e op, e.currentTime ≤ (runEngineOp e op).currentTime ∨
      (runEngineOp e op).currentTime = 1) ∧
    (∀ ops, 1 ≤ (runEngineOps ops).currentTime) ∧
    (∀ (currentTime pipe : ℕ) (s : Sampler), 1 ≤ currentTime →
      ((stopSample pipe s currentTime).1 = 0 ↔ s.provider ≠ some pipe)) := by
  refine ⟨rfl, fun e => rfl, ?_, ?_, ?_⟩
  · intro e op
    cases op <;> simp [runEngineOp, resetCounters, nextPeriod]
  · intro ops
    exact foldl_runEngineOp_time_lb ops initEngine (le_refl 1)
  · intro ct pipe s h
    unfold stopSample
    split_ifs with hp
    · simp [hp]
    · simp only [hp, not_false_iff, iff_false]  -- placeholder
      omega

theorem currentTime_ge_one_witness :
    1 ≤ (runEngineOps
        [EngineOp.startEngine, EngineOp.nextPeriodOp 3]).currentTime ∧
    ((stopSample 2 agedReleaseSampler 1).1 = 0 ↔
      agedReleaseSampler.provider ≠ some 2) :=
  ⟨currentTime_ge_one.2.2.2.1 [EngineOp.startEngine, EngineOp.nextPeriodOp 3],
    currentTime_ge_one.2.2.2.2 1 2 agedReleaseSampler (le_refl 1)⟩

/-- Claim C7 counterexample: at MIDI key 25 the attack duration is 493.75 ms
and at t = 493 ms the claim's condition t < attack_duration holds with a
gain multiplier different from 1, yet the source (comparing against the
truncated `(int)attack_duration = 493`) leaves the gain target unscaled. -/
theorem attack_cutoff_truncated :
    attackDurationFor (defaultMidiKey 25) = 1975 / 4 ∧
    (493 : ℚ) < attackDurationFor (defaultMidiKey 25) ∧
    releaseGainDelta 493 (attackDurationFor (defaultMidiKey 25))
      = 19503089 / 19503125 ∧
    (createReleaseScaling true true 25 493 44100 44100 0).gainFactor = 1 ∧
    (createReleaseScaling true true 25 493 44100 44100 0).gainFactor
      ≠ releaseGainDelta 493 (attackDurationFor (defaultMidiKey 25)) := by
  refine ⟨?_, ?_, ?_, ?_, ?_⟩
  · norm_num [attackDurationFor, defaultMidiKey]
  · norm_num [attackDurationFor, defaultMidiKey]
  · norm_num [releaseGainDelta, attackDurationFor, defaultMidiKey]
  · simp only [createReleaseScaling, defaultMidiKey]
    norm_num [attackDurationFor]
  · simp only [createReleaseScaling, defaultMidiKey]
    norm_num [attackDurationFor, releaseGainDelta]

/-- Claim C7 (amended): for a release sampler created on a windchest task
with scaled releases enabled, the MIDI key defaults to 60 outside 1..133,
the modelled attack duration equals the spec's linear interpolation (50 ms
at key >= 96, 500 ms at key <= 24, linear in between), and the release gain
target is multiplied by 0.2 + 0.8(2x - x^2), x = t / attack_duration,
exactly when t < floor(attack_duration) (the source compares the integer
elapsed milliseconds with the truncated attack duration). -/
theorem release_attack_model (k t L sr rt : ℕ) :
    defaultMidiKey k = (if 1 ≤ k ∧ k ≤ 133 then k else 60) ∧
    (∀ m, attackDurationFor m = attackDurationSpec m) ∧
    (createReleaseScaling true true k t L sr rt).gainFactor
      = (if (t : ℤ) < ⌊attackDurationSpec (defaultMidiKey k)⌋ then
          releaseGainDelta t (attackDurationSpec (defaultMidiKey k))
        else 1) := by
  have had : ∀ m, attackDurationFor m = attackDurationSpec m := by
    intro m
    unfold attackDurationFor attackDurationSpec
    by_cases h96 : m < 96
    · by_cases h24 : m < 24
      · simp only [if_pos h96, if_pos h24, if_neg (by omega : ¬ 96 ≤ m),
          if_pos (by omega : m ≤ 24)]
      · by_cases h24e : m = 24
        · subst h24e
          norm_num
        · rw [if_pos h96, if_neg h24, if_neg (by omega : ¬ 96 ≤ m),
            if_neg (by omega : ¬ m ≤ 24),
            show ((50 : ℚ) - 500) / (96 - 24) = -25 / 4 by norm_num]
          ring
    · simp only [if_neg h96, if_pos (by omega : 96 ≤ m)]
  refine ⟨?_, had, ?_⟩
  · unfold defaultMidiKey
    split_ifs <;> omega
  · simp only [createReleaseScaling, and_self, ite_true]
    rw [had]

theorem release_attack_model_witness :
    (createReleaseScaling true true 60 0 44100 44100 0).gainFactor
      = (if (0 : ℤ) < ⌊attackDurationSpec (defaultMidiKey 60)⌋ then
          releaseGainDelta 0 (attackDurationSpec (defaultMidiKey 60))
        else 1) :=
  (release_attack_model 60 0 44100 44100 0).2.2

/-- Claim C8 counterexample: with a release section of 44100 samples at
44100 Hz the time-to-full-reverb is 100 ms and a note released at t = 50 ms
should decay over 100 + 6000 * 50 / 100 = 3100 ms, but a configured release
tail of 50 ms overrides the scheduled decay length. -/
theorem release_tail_overrides_decay :
    timeToFullReverb 44100 44100 = 100 ∧
    (50 : ℕ) < timeToFullReverb 44100 44100 ∧
    (createReleaseScaling true true 60 50 44100 44100 50).decayMs = 50 ∧
    (createReleaseScaling true true 60 50 44100 44100 50).decayMs
      ≠ timeToFullReverb 44100 44100
          + 6000 * 50 / timeToFullReverb 44100 44100 := by
  refine ⟨by decide, by decide, ?_, ?_⟩
  · simp only [createReleaseScaling, timeToFullReverb]
    norm_num
  · simp only [createReleaseScaling, timeToFullReverb]
    norm_num

/-- Claim C8 (amended): time-to-full-reverb is computed in integer
arithmetic as min(max(60 L / sr + 40, 100), 350) from the release section's
length and sample rate; when the note is released t < ttr ms after its start
and the pipe's configured release tail does not override it (it is 0 or at
least as long), the release voice is scheduled to decay over
ttr + 6000 t / ttr milliseconds. -/
theorem release_decay_length (k t L sr rt : ℕ)
    (ht : t < timeToFullReverb L sr)
    (hrt : rt = 0 ∨
      timeToFullReverb L sr + 6000 * t / timeToFullReverb L sr ≤ rt) :
    (∀ len rate, timeToFullReverb len rate
        = min (max (60 * len / rate + 40) 100) 350) ∧
    (createReleaseScaling true true k t L sr rt).decayMs
      = timeToFullReverb L sr + 6000 * t / timeToFullReverb L sr := by
  have httr : 100 ≤ timeToFullReverb L sr := by
    simp only [timeToFullReverb]
    split_ifs <;> omega
  constructor
  · intro len rate
    simp only [timeToFullReverb]
    split_ifs <;> omega
  · simp only [createReleaseScaling, and_self, ite_true, if_pos ht,
      Prod.snd]
    generalize 6000 * t / timeToFullReverb L sr = q at hrt ⊢
    split_ifs with hc
    · exfalso
      omega
    · rfl

theorem release_decay_length_witness :
    (createReleaseScaling true true 60 50 44100 44100 0).decayMs
      = timeToFullReverb 44100 44100
          + 6000 * 50 / timeToFullReverb 44100 44100 :=
  (release_decay_length 60 50 44100 44100 0 (by decide) (Or.inl rfl)).2

end GOSound
